import Mathlib

/-!
Verification development for the `aula20-ssr` server (`src/server.ts`), an
Express + Handlebars demo application.  The definitions below are a shallow
embedding of the program: the error-class hierarchy, the template helpers,
the route handlers, the middleware stack in its registration order, and the
port-selection expression.  Theorems about the claims of the specification
follow the definitions.
-/

/-! ## Error taxonomy (server.ts lines 8-24)

`AppError` (code `unknown_error`), `AuthenticationError` (code `auth_error`)
and `RequiredFieldError` (code `required_field_error`).  The class hierarchy
is embedded as a variant tag; the `code` field of an instance is a function
of the variant alone (the TypeScript classes initialize `code` once and
nothing ever assigns to it). -/

inductive AppErrorVariant
  | base
  | auth
  | requiredField
deriving DecidableEq, Repr

def AppErrorVariant.code : AppErrorVariant → String
  | .base => "unknown_error"
  | .auth => "auth_error"
  | .requiredField => "required_field_error"

/-- A value thrown inside a handler: either an instance of the `AppError`
hierarchy (carrying its variant and free-form message), or any other thrown
`Error`-like value, which may or may not carry a `code` property (`none`
models an absent/undefined property). -/
inductive ThrownError
  | appErr (k : AppErrorVariant) (message : String)
  | otherErr (message : String) (code : Option String)
deriving DecidableEq, Repr

/-- Reading the `code` property off a thrown value, as the expression
`(err as AppError).code` does: an `AppError` instance yields its variant's
code, any other value yields whatever `code` property it happens to carry. -/
def ThrownError.codeProp : ThrownError → Option String
  | .appErr k _ => some k.code
  | .otherErr _ c => c

/-! ## JavaScript numeric parsing, `parseInt` and `||` (server.ts line 219)

`const port = parseInt(process.argv[2]) || 3000`. -/

def digitsToNat (ds : List Char) : Nat :=
  ds.foldl (fun acc c => 10 * acc + (c.toNat - Char.toNat '0')) 0

def jsIsHexDigit (c : Char) : Bool :=
  c.isDigit || ('a' ≤ c && c ≤ 'f') || ('A' ≤ c && c ≤ 'F')

def hexVal (c : Char) : Nat :=
  if c.isDigit then c.toNat - Char.toNat '0'
  else if 'a' ≤ c && c ≤ 'f' then c.toNat - Char.toNat 'a' + 10
  else c.toNat - Char.toNat 'A' + 10

def hexDigitsToNat (ds : List Char) : Nat :=
  ds.foldl (fun acc c => 16 * acc + hexVal c) 0

/-- Longest leading run of decimal digits; no digits means NaN (`none`). -/
def parseDecDigits (cs : List Char) : Option Nat :=
  let ds := cs.takeWhile Char.isDigit
  if ds.isEmpty then none else some (digitsToNat ds)

/-- Longest leading run of hexadecimal digits; no digits means NaN. -/
def parseHexDigits (cs : List Char) : Option Nat :=
  let ds := cs.takeWhile jsIsHexDigit
  if ds.isEmpty then none else some (hexDigitsToNat ds)

/-- The unsigned part of ECMAScript `parseInt` with an unspecified radix:
a `0x`/`0X` marker selects radix 16, otherwise radix 10, reading the longest
valid digit run and ignoring any trailing garbage. -/
def parseIntUnsigned : List Char → Option Nat
  | '0' :: c :: rest =>
    if c = 'x' ∨ c = 'X' then parseHexDigits rest
    else parseDecDigits ('0' :: c :: rest)
  | cs => parseDecDigits cs

/-- ECMAScript `parseInt(s)`: skip leading whitespace, optional sign, longest
digit run; `none` models NaN. -/
def parseIntChars (cs : List Char) : Option Int :=
  match cs.dropWhile Char.isWhitespace with
  | '-' :: rest => (parseIntUnsigned rest).map (fun n => -(n : Int))
  | '+' :: rest => (parseIntUnsigned rest).map (fun n => (n : Int))
  | cs' => (parseIntUnsigned cs').map (fun n => (n : Int))

/-- `parseInt(process.argv[2])` where `argv[2]` may be absent: JavaScript
coerces `undefined` to the string "undefined", which parses to NaN. -/
def parseIntJS : Option String → Option Int
  | none => none
  | some s => parseIntChars s.data

/-- The JavaScript `x || d` expression on a number-or-NaN left operand:
NaN and 0 are falsy and select the default. -/
def jsOrNum (x : Option Int) (d : Int) : Int :=
  match x with
  | some n => if n = 0 then d else n
  | none => d

/-- server.ts line 219: `const port = parseInt(process.argv[2]) || 3000`. -/
def port (argv2 : Option String) : Int :=
  jsOrNum (parseIntJS argv2) 3000

/-! ## The `equals` template helper (server.ts line 54)

`equals: (a, b) => a == b` — JavaScript loose (coercive) equality.  The
helper is invoked by the template engine on primitive values; the embedding
covers the primitive types (number, string, boolean, null, undefined), with
ECMAScript Abstract Equality semantics.  String-to-number coercion
(`ToNumber`) is modelled for decimal numeric strings, the forms exercised by
this application. -/

def trimWS (cs : List Char) : List Char :=
  ((cs.dropWhile Char.isWhitespace).reverse.dropWhile Char.isWhitespace).reverse

/-- A full decimal literal `digits [. digits]` or `. digits`, consuming the
whole input; `none` models NaN. -/
def parseDecQ (cs : List Char) : Option ℚ :=
  let ip := cs.takeWhile Char.isDigit
  match cs.dropWhile Char.isDigit with
  | [] => if ip.isEmpty then none else some (digitsToNat ip)
  | '.' :: frac =>
    let fp := frac.takeWhile Char.isDigit
    if (frac.dropWhile Char.isDigit).isEmpty then
      if ip.isEmpty && fp.isEmpty then none
      else some ((digitsToNat ip : ℚ) + (digitsToNat fp : ℚ) / (10 : ℚ) ^ fp.length)
    else none
  | _ => none

/-- ECMAScript `ToNumber` on a string (decimal forms): whitespace-trimmed,
empty means 0, optional sign, full decimal literal; `none` models NaN. -/
def toNumberStr (s : String) : Option ℚ :=
  let cs := trimWS s.data
  if cs.isEmpty then some 0
  else
    match cs with
    | '-' :: rest => (parseDecQ rest).map Neg.neg
    | '+' :: rest => parseDecQ rest
    | cs' => parseDecQ cs'

/-- JavaScript primitive values as passed to a template helper. -/
inductive JSPrim
  | num (q : ℚ)
  | str (s : String)
  | boolean (b : Bool)
  | null
  | undef
deriving DecidableEq, Repr

def boolToQ (b : Bool) : ℚ := if b then 1 else 0

/-- ECMAScript Abstract Equality (`==`) on primitive values: same-type
comparison is structural, number-vs-string coerces the string with
`ToNumber` (NaN compares unequal to everything), booleans coerce to numbers,
`null` and `undefined` equal each other and nothing else. -/
def jsLooseEq : JSPrim → JSPrim → Bool
  | .num a, .num b => decide (a = b)
  | .str a, .str b => decide (a = b)
  | .boolean a, .boolean b => decide (a = b)
  | .null, .null => true
  | .undef, .undef => true
  | .null, .undef => true
  | .undef, .null => true
  | .num a, .str s =>
    match toNumberStr s with
    | some b => decide (a = b)
    | none => false
  | .str s, .num b =>
    match toNumberStr s with
    | some a => decide (a = b)
    | none => false
  | .boolean x, .num b => decide (boolToQ x = b)
  | .num a, .boolean y => decide (a = boolToQ y)
  | .boolean x, .str s =>
    match toNumberStr s with
    | some b => decide (boolToQ x = b)
    | none => false
  | .str s, .boolean y =>
    match toNumberStr s with
    | some a => decide (a = boolToQ y)
    | none => false
  | _, _ => false

/-- server.ts line 54: the `equals` helper, `(a, b) => a == b`. -/
def equals (a b : JSPrim) : Bool := jsLooseEq a b

/-! ## Render data model

The values handlers place into a render context: strings, numbers,
booleans, the string list of `/list`, and the product records of
`/products`.  A `RenderContext` is the object literal passed to
`res.render`, in field order. -/

structure Product where
  name : String
  price : ℚ
  description : String
deriving DecidableEq, Repr

inductive CtxValue
  | s (v : String)
  | n (v : ℚ)
  | b (v : Bool)
  | strs (v : List String)
  | prods (v : List Product)
deriving DecidableEq, Repr

abbrev RenderContext := List (String × CtxValue)

/-- The `layout` option of a render call: absent (default layout), `false`
(no layout), or the name of an alternate layout file. -/
inductive LayoutOpt
  | default
  | noLayout
  | named (file : String)
deriving DecidableEq, Repr

/-- A finished HTTP response: a rendered page (status, template name, layout
option, context) or a static asset under `/static`. -/
inductive Response
  | page (status : Nat) (view : String) (layout : LayoutOpt) (ctx : RenderContext)
  | asset (path : List String)
deriving DecidableEq, Repr

/-- What a route handler body does: send a response, or throw. -/
inductive HandlerOutcome
  | respond (r : Response)
  | raise (e : ThrownError)
deriving DecidableEq, Repr

/-- Captured path parameters (`req.params`), as name/value pairs. -/
abbrev Params := List (String × String)

def getParam (ps : Params) (k : String) : String :=
  (ps.lookup k).getD ""

/-! ## Route handlers (server.ts lines 77-203)

Each handler is the body of the corresponding `app.get` callback: a pure
function from captured params to an outcome. -/

def simpleHandler : Params → HandlerOutcome := fun _ =>
  .respond (.page 200 "simple" .noLayout
    [("value1", .s "Example Value 1"), ("value2", .s "Example Value 2")])

def homeHandler : Params → HandlerOutcome := fun _ =>
  .respond (.page 200 "home" .default [("title", .s "Home Page")])

def sayMyNameHandler : Params → HandlerOutcome := fun ps =>
  .respond (.page 200 "say-name" .default
    [("fname", .s (getParam ps "fname")), ("lname", .s (getParam ps "lname"))])

def sayMyName2Handler : Params → HandlerOutcome := fun ps =>
  .respond (.page 200 "say-name" (.named "alternate.handlebars")
    [("fname", .s (getParam ps "fname")), ("lname", .s (getParam ps "lname"))])

def partialsExampleHandler : Params → HandlerOutcome := fun _ =>
  .respond (.page 200 "say-name" (.named "layout-partials.handlebars")
    [("fname", .s "John"), ("lname", .s "Doe")])

def listHandler : Params → HandlerOutcome := fun _ =>
  .respond (.page 200 "list" .default
    [("items", .strs ["Item 1", "Item 2", "Item 3", "Item 4"])])

/-- The fixed product records of the `/products` and `/products-partials`
handlers (server.ts lines 141-145 and 155-159). -/
def productsRecords : List Product :=
  [⟨"Product 1", 19.99, "Description for Product 1"⟩,
   ⟨"Product 2", 29.99, "Description for Product 2"⟩,
   ⟨"Product 3", 39.99, "Description for Product 3"⟩]

def productsHandler : Params → HandlerOutcome := fun _ =>
  .respond (.page 200 "products" .default [("products", .prods productsRecords)])

def productsPartialsHandler : Params → HandlerOutcome := fun _ =>
  .respond (.page 200 "products-partials" (.named "layout-partials.handlebars")
    [("products", .prods productsRecords)])

def profileHandler : Params → HandlerOutcome := fun _ =>
  .respond (.page 200 "profile" .default
    [("isLoggedIn", .b true), ("username", .s "JaneDoe"), ("isAdmin", .b false)])

def unlessExampleHandler : Params → HandlerOutcome := fun _ =>
  .respond (.page 200 "unless-example" .default
    [("isLoggedIn", .b false), ("username", .s "Guest")])

def errorAHandler : Params → HandlerOutcome := fun _ =>
  .raise (.appErr .auth "User or password does not match")

def errorBHandler : Params → HandlerOutcome := fun _ =>
  .raise (.appErr .requiredField "A required field is missing")

/-! ## Path patterns and route matching -/

/-- One segment of an Express path pattern: a literal, or a named `:param`. -/
inductive Seg
  | lit (s : String)
  | cap (name : String)
deriving DecidableEq, Repr

abbrev PathPattern := List Seg

inductive Method
  | get
  | post
  | other
deriving DecidableEq, Repr

/-- An incoming request: method and path split into segments
(so `GET /saymyname/John/Doe` is `⟨.get, ["saymyname", "John", "Doe"]⟩`
and `GET /` is `⟨.get, []⟩`). -/
structure Request where
  method : Method
  path : List String
deriving DecidableEq, Repr

def segMatch : Seg → String → Bool
  | .lit s, x => decide (s = x)
  | .cap _, _ => true

def patMatch : PathPattern → List String → Bool
  | [], [] => true
  | p :: ps, x :: xs => segMatch p x && patMatch ps xs
  | _, _ => false

/-- The parameters captured by a matching pattern. -/
def capture : PathPattern → List String → Params
  | .cap name :: ps, x :: xs => (name, x) :: capture ps xs
  | _ :: ps, _ :: xs => capture ps xs
  | _, _ => []

/-- A method + path-pattern + handler binding, one `app.get` call. -/
structure RouteEntry where
  method : Method
  pattern : PathPattern
  handler : Params → HandlerOutcome

/-- Every route registered with `app.get` in server.ts, in registration
order (lines 77-182 and, after the not-found middleware, lines 194-203). -/
def routeTable : List RouteEntry :=
  [⟨.get, [.lit "simple"], simpleHandler⟩,
   ⟨.get, [], homeHandler⟩,
   ⟨.get, [.lit "saymyname", .cap "fname", .cap "lname"], sayMyNameHandler⟩,
   ⟨.get, [.lit "saymyname2", .cap "fname", .cap "lname"], sayMyName2Handler⟩,
   ⟨.get, [.lit "partials-example"], partialsExampleHandler⟩,
   ⟨.get, [.lit "list"], listHandler⟩,
   ⟨.get, [.lit "products"], productsHandler⟩,
   ⟨.get, [.lit "products-partials"], productsPartialsHandler⟩,
   ⟨.get, [.lit "profile"], profileHandler⟩,
   ⟨.get, [.lit "unless-example"], unlessExampleHandler⟩,
   ⟨.get, [.lit "error-a"], errorAHandler⟩,
   ⟨.get, [.lit "error-b"], errorBHandler⟩]

/-! ## Middleware and the application stack (registration order) -/

/-- One layer of the Express stack: a routed handler, a plain middleware
(`none` means it called `next()`), or an error middleware (only reached
while an error is propagating). -/
inductive StackEntry
  | route (m : Method) (pat : PathPattern) (h : Params → HandlerOutcome)
  | mid (h : Request → Option HandlerOutcome)
  | errMid (h : ThrownError → Response)

/-- server.ts line 72: `express.static` mounted at `/static` — responds to
any request under that prefix, passes through otherwise. -/
def staticMid (req : Request) : Option HandlerOutcome :=
  if req.path.headD "" = "static" then some (.respond (.asset req.path.tail))
  else none

/-- server.ts lines 187-189: the not-found middleware,
`res.status(404).render('not-found')`, with no context object. -/
def notFoundMid (_ : Request) : Option HandlerOutcome :=
  some (.respond (.page 404 "not-found" .default []))

/-- The JavaScript `x || d` on a string-or-undefined left operand: an absent
property and the empty string are falsy. -/
def jsOrStr (x : Option String) (d : String) : String :=
  match x with
  | some c => if c = "" then d else c
  | none => d

/-- server.ts lines 210-217: the error middleware,
`res.status(500).render('error', { code: (err as AppError).code || 'unknown_error' })`. -/
def errorMiddleware (e : ThrownError) : Response :=
  .page 500 "error" .default [("code", .s (jsOrStr e.codeProp "unknown_error"))]

/-- The complete middleware stack of the application, in the exact order the
source registers it: static, the ten page routes, the not-found middleware,
then the two error routes, then the error middleware. -/
def appStack : List StackEntry :=
  [.mid staticMid,
   .route .get [.lit "simple"] simpleHandler,
   .route .get [] homeHandler,
   .route .get [.lit "saymyname", .cap "fname", .cap "lname"] sayMyNameHandler,
   .route .get [.lit "saymyname2", .cap "fname", .cap "lname"] sayMyName2Handler,
   .route .get [.lit "partials-example"] partialsExampleHandler,
   .route .get [.lit "list"] listHandler,
   .route .get [.lit "products"] productsHandler,
   .route .get [.lit "products-partials"] productsPartialsHandler,
   .route .get [.lit "profile"] profileHandler,
   .route .get [.lit "unless-example"] unlessExampleHandler,
   .mid notFoundMid,
   .route .get [.lit "error-a"] errorAHandler,
   .route .get [.lit "error-b"] errorBHandler,
   .errMid errorMiddleware]

/-- Error propagation: once a handler has thrown, Express skips forward to
the next error middleware. -/
def dispatchErrFrom : List StackEntry → ThrownError → Option Response
  | [], _ => none
  | .errMid h :: _, e => some (h e)
  | .route _ _ _ :: rest, e => dispatchErrFrom rest e
  | .mid _ :: rest, e => dispatchErrFrom rest e

/-- Express dispatch: walk the stack in order; the first layer that matches
the request runs; a response terminates, a thrown error switches to error
propagation, `next()` continues down the stack. -/
def dispatchFrom : List StackEntry → Request → Option Response
  | [], _ => none
  | .route m pat h :: rest, req =>
    if req.method = m ∧ patMatch pat req.path = true then
      match h (capture pat req.path) with
      | .respond r => some r
      | .raise e => dispatchErrFrom rest e
    else dispatchFrom rest req
  | .mid h :: rest, req =>
    match h req with
    | some (.respond r) => some r
    | some (.raise e) => dispatchErrFrom rest e
    | none => dispatchFrom rest req
  | .errMid _ :: rest, req => dispatchFrom rest req

/-- The application's response to a request. -/
def handleRequest (req : Request) : Option Response :=
  dispatchFrom appStack req

/-! ## Helper lemmas about dispatch -/

theorem dispatchFrom_mid_of_none {h : Request → Option HandlerOutcome}
    {rest : List StackEntry} {req : Request} (hh : h req = none) :
    dispatchFrom (.mid h :: rest) req = dispatchFrom rest req := by
  simp [dispatchFrom, hh]

theorem dispatchFrom_mid_of_respond {h : Request → Option HandlerOutcome}
    {rest : List StackEntry} {req : Request} {r : Response}
    (hh : h req = some (.respond r)) :
    dispatchFrom (.mid h :: rest) req = some r := by
  simp [dispatchFrom, hh]

theorem dispatchFrom_route_of_no_match {m : Method} {pat : PathPattern}
    {hnd : Params → HandlerOutcome} {rest : List StackEntry} {req : Request}
    (hc : ¬(req.method = m ∧ patMatch pat req.path = true)) :
    dispatchFrom (.route m pat hnd :: rest) req = dispatchFrom rest req := by
  simp only [dispatchFrom, if_neg hc]

/-! ## Claim theorems -/

/-- C1: the specification says GET `/error-a` receives HTTP 500 with the
error template's code `auth_error`, and GET `/error-b` receives HTTP 500
with code `required_field_error`.  The code does not do this: the catch-all
not-found middleware (line 187) is registered before the two error routes
(lines 194-203), so it matches first and both requests receive 404 with the
not-found template.  The last two conjuncts show that the error routes and
error middleware, dispatched without the shadowing middleware in front,
produce exactly the responses the specification describes — the intended
behavior the registration order defeats. -/
theorem errorRoutes_shadowed_by_notFound :
    handleRequest ⟨.get, ["error-a"]⟩ = some (.page 404 "not-found" .default []) ∧
    handleRequest ⟨.get, ["error-b"]⟩ = some (.page 404 "not-found" .default []) ∧
    handleRequest ⟨.get, ["error-a"]⟩ ≠
      some (.page 500 "error" .default [("code", .s "auth_error")]) ∧
    handleRequest ⟨.get, ["error-b"]⟩ ≠
      some (.page 500 "error" .default [("code", .s "required_field_error")]) ∧
    dispatchFrom [.route .get [.lit "error-a"] errorAHandler,
      .route .get [.lit "error-b"] errorBHandler,
      .errMid errorMiddleware] ⟨.get, ["error-a"]⟩ =
      some (.page 500 "error" .default [("code", .s "auth_error")]) ∧
    dispatchFrom [.route .get [.lit "error-a"] errorAHandler,
      .route .get [.lit "error-b"] errorBHandler,
      .errMid errorMiddleware] ⟨.get, ["error-b"]⟩ =
      some (.page 500 "error" .default [("code", .s "required_field_error")]) := by
  decide

/-- C2: the specification says a failure outside the ApplicationError
taxonomy renders `unknown_error`.  The middleware instead renders any truthy
`code` property the thrown value happens to carry: a non-AppError failure
with code `ENOENT` renders `ENOENT`, not `unknown_error`. -/
theorem errorMiddleware_foreign_code :
    errorMiddleware (.otherErr "no such file or directory" (some "ENOENT")) =
      .page 500 "error" .default [("code", .s "ENOENT")] ∧
    ("ENOENT" : String) ≠ "unknown_error" := by
  decide

/-- C3: any request that matches no Route Table entry (and is not a static
asset request, which the out-of-scope static middleware intercepts) receives
HTTP 404 with the not-found template and an empty render context. -/
theorem unmatched_request_notFound (req : Request)
    (hstatic : req.path.headD "" ≠ "static")
    (hmatch : ∀ r ∈ routeTable, ¬(req.method = r.method ∧ patMatch r.pattern req.path = true)) :
    handleRequest req = some (.page 404 "not-found" .default []) := by
  have h1 : ¬(req.method = .get ∧ patMatch [.lit "simple"] req.path = true) :=
    hmatch ⟨.get, [.lit "simple"], simpleHandler⟩ (by simp [routeTable])
  have h2 : ¬(req.method = .get ∧ patMatch [] req.path = true) :=
    hmatch ⟨.get, [], homeHandler⟩ (by simp [routeTable])
  have h3 : ¬(req.method = .get ∧
      patMatch [.lit "saymyname", .cap "fname", .cap "lname"] req.path = true) :=
    hmatch ⟨.get, [.lit "saymyname", .cap "fname", .cap "lname"], sayMyNameHandler⟩
      (by simp [routeTable])
  have h4 : ¬(req.method = .get ∧
      patMatch [.lit "saymyname2", .cap "fname", .cap "lname"] req.path = true) :=
    hmatch ⟨.get, [.lit "saymyname2", .cap "fname", .cap "lname"], sayMyName2Handler⟩
      (by simp [routeTable])
  have h5 : ¬(req.method = .get ∧ patMatch [.lit "partials-example"] req.path = true) :=
    hmatch ⟨.get, [.lit "partials-example"], partialsExampleHandler⟩ (by simp [routeTable])
  have h6 : ¬(req.method = .get ∧ patMatch [.lit "list"] req.path = true) :=
    hmatch ⟨.get, [.lit "list"], listHandler⟩ (by simp [routeTable])
  have h7 : ¬(req.method = .get ∧ patMatch [.lit "products"] req.path = true) :=
    hmatch ⟨.get, [.lit "products"], productsHandler⟩ (by simp [routeTable])
  have h8 : ¬(req.method = .get ∧ patMatch [.lit "products-partials"] req.path = true) :=
    hmatch ⟨.get, [.lit "products-partials"], productsPartialsHandler⟩ (by simp [routeTable])
  have h9 : ¬(req.method = .get ∧ patMatch [.lit "profile"] req.path = true) :=
    hmatch ⟨.get, [.lit "profile"], profileHandler⟩ (by simp [routeTable])
  have h10 : ¬(req.method = .get ∧ patMatch [.lit "unless-example"] req.path = true) :=
    hmatch ⟨.get, [.lit "unless-example"], unlessExampleHandler⟩ (by simp [routeTable])
  have hs : staticMid req = none := by
    unfold staticMid
    rw [if_neg hstatic]
  have hn : notFoundMid req = some (.respond (.page 404 "not-found" .default [])) := rfl
  unfold handleRequest appStack
  rw [dispatchFrom_mid_of_none hs,
    dispatchFrom_route_of_no_match h1, dispatchFrom_route_of_no_match h2,
    dispatchFrom_route_of_no_match h3, dispatchFrom_route_of_no_match h4,
    dispatchFrom_route_of_no_match h5, dispatchFrom_route_of_no_match h6,
    dispatchFrom_route_of_no_match h7, dispatchFrom_route_of_no_match h8,
    dispatchFrom_route_of_no_match h9, dispatchFrom_route_of_no_match h10,
    dispatchFrom_mid_of_respond hn]

/-- Witness for C3 at the concrete request GET `/does-not-exist`. -/
theorem unmatched_request_notFound_witness :
    handleRequest ⟨.get, ["does-not-exist"]⟩ =
      some (.page 404 "not-found" .default []) :=
  unmatched_request_notFound ⟨.get, ["does-not-exist"]⟩ (by decide) (by decide)

/-- C4: the `equals` helper is JavaScript loose (coercive) equality:
`equals(1, "1")` is true, `equals("a", "b")` is false, same-type comparisons
are structural, and a number equals a string exactly when coercing the
string to a number (`ToNumber`) yields that number. -/
theorem equals_is_loose_coercive_equality :
    equals (.num 1) (.str "1") = true ∧
    equals (.str "a") (.str "b") = false ∧
    (∀ a b : ℚ, equals (.num a) (.num b) = true ↔ a = b) ∧
    (∀ s t : String, equals (.str s) (.str t) = true ↔ s = t) ∧
    (∀ (a : ℚ) (s : String), equals (.num a) (.str s) = true ↔ toNumberStr s = some a) ∧
    (∀ (a : ℚ) (s : String), equals (.str s) (.num a) = true ↔ toNumberStr s = some a) := by
  refine ⟨by decide, by decide, ?_, ?_, ?_, ?_⟩
  · intro a b
    simp [equals, jsLooseEq]
  · intro s t
    simp [equals, jsLooseEq]
  · intro a s
    cases h : toNumberStr s with
    | none => simp [equals, jsLooseEq, h]
    | some b => simp [equals, jsLooseEq, h, eq_comm]
  · intro a s
    cases h : toNumberStr s with
    | none => simp [equals, jsLooseEq, h]
    | some b => simp [equals, jsLooseEq, h, eq_comm]

/-- C5 counterexample: the specification says the port defaults to 3000
whenever the argument is non-numeric, but for the non-numeric argument
`"80abc"` (its full-string numeric parse fails) the code selects port 80,
because `parseInt` parses the longest numeric prefix. -/
theorem port_default_claim_cex :
    toNumberStr "80abc" = none ∧ port (some "80abc") = 80 ∧ (80 : Int) ≠ 3000 := by
  decide

/-- C5 amended: the port equals the `parseInt` prefix-parse of the argument
whenever that parse yields a nonzero number, and is 3000 when the argument
is absent (parse is NaN) or parses to 0. -/
theorem port_default_corrected (arg : Option String) :
    (∀ n : Int, parseIntJS arg = some n → n ≠ 0 → port arg = n) ∧
    ((parseIntJS arg = none ∨ parseIntJS arg = some 0) → port arg = 3000) := by
  constructor
  · intro n hn hnz
    simp [port, jsOrNum, hn, hnz]
  · rintro (h | h) <;> simp [port, jsOrNum, h]

/-- Witness for the amended C5 at the concrete argument `"80abc"`. -/
theorem port_default_corrected_witness : port (some "80abc") = 80 :=
  (port_default_corrected (some "80abc")).1 80 (by decide) (by decide)

/-- C6: every route handler is a pure function of its captured parameters:
identical inputs give the identical (template, context, layout) outcome.
Determinism of the rendered HTML follows because the renderer receives
nothing but this triple. -/
theorem route_handlers_deterministic (i : Fin routeTable.length) (p q : Params)
    (h : p = q) :
    (routeTable.get i).handler p = (routeTable.get i).handler q := by
  rw [h]

/-- Witness for C6 at the first route and a concrete parameter list. -/
theorem route_handlers_deterministic_witness :
    (routeTable.get ⟨0, by decide⟩).handler [("x", "1")] =
      (routeTable.get ⟨0, by decide⟩).handler [("x", "1")] :=
  route_handlers_deterministic ⟨0, by decide⟩ [("x", "1")] [("x", "1")] rfl

/-- C7: the `/products` handler's context holds exactly the three fixed
product records, in input order, with the stated names, prices and
descriptions, independently of the request parameters. -/
theorem products_context_exact :
    productsRecords.length = 3 ∧
    productsRecords.map Product.name = ["Product 1", "Product 2", "Product 3"] ∧
    productsRecords.map Product.price = [(19.99 : ℚ), 29.99, 39.99] ∧
    productsRecords.map Product.description =
      ["Description for Product 1", "Description for Product 2",
       "Description for Product 3"] ∧
    (∀ ps : Params, productsHandler ps =
      .respond (.page 200 "products" .default [("products", .prods productsRecords)])) :=
  ⟨rfl, rfl, rfl, rfl, fun _ => rfl⟩

/-- C8: the error taxonomy is closed (base, authentication, required-field),
each variant carries its fixed code, and the code of a constructed error
depends on its variant alone — never on the message, and (the embedding
being pure) nothing can change it after construction: two constructed
errors read back equal codes exactly when they are the same variant. -/
theorem appError_variant_codes :
    AppErrorVariant.code .base = "unknown_error" ∧
    AppErrorVariant.code .auth = "auth_error" ∧
    AppErrorVariant.code .requiredField = "required_field_error" ∧
    (∀ k : AppErrorVariant, k = .base ∨ k = .auth ∨ k = .requiredField) ∧
    (∀ (k k' : AppErrorVariant) (m m' : String),
      ThrownError.codeProp (.appErr k m) = ThrownError.codeProp (.appErr k' m') ↔
        k = k') := by
  refine ⟨rfl, rfl, rfl, fun k => by cases k <;> simp, ?_⟩
  intro k k' m m'
  cases k <;> cases k' <;>
    simp [ThrownError.codeProp, AppErrorVariant.code]

/-- C9: the error middleware renders the thrown value's own `code` property
whenever that property is present and truthy (even for values outside the
AppError taxonomy), and renders `unknown_error` exactly when the property is
absent or falsy; the status is 500 either way. -/
theorem errorMiddleware_truthiness (e : ThrownError) :
    (∀ c : String, e.codeProp = some c → c ≠ "" →
      errorMiddleware e = .page 500 "error" .default [("code", .s c)]) ∧
    ((e.codeProp = none ∨ e.codeProp = some "") →
      errorMiddleware e = .page 500 "error" .default [("code", .s "unknown_error")]) := by
  constructor
  · intro c hc hne
    simp [errorMiddleware, jsOrStr, hc, hne]
  · rintro (hc | hc) <;> simp [errorMiddleware, jsOrStr, hc]

/-- Witness for C9 at a concrete non-AppError failure carrying code
`EACCES`. -/
theorem errorMiddleware_truthiness_witness :
    errorMiddleware (.otherErr "permission denied" (some "EACCES")) =
      .page 500 "error" .default [("code", .s "EACCES")] :=
  (errorMiddleware_truthiness (.otherErr "permission denied" (some "EACCES"))).1
    "EACCES" rfl (by decide)

/-- C10: the port is the `parseInt` prefix-parse of the argument
(`"80abc"` selects 80) if that parse is a nonzero number, and 3000 when the
parse is NaN (absent or digit-free argument) or 0 (the argument `"0"`
selects 3000, not 0). -/
theorem port_prefix_parse_behavior (arg : Option String) :
    port none = 3000 ∧ port (some "0") = 3000 ∧ port (some "80abc") = 80 ∧
    (∀ n : Int, parseIntJS arg = some n → port arg = if n = 0 then 3000 else n) ∧
    (parseIntJS arg = none → port arg = 3000) := by
  refine ⟨by decide, by decide, by decide, ?_, ?_⟩
  · intro n hn
    simp [port, jsOrNum, hn]
  · intro hn
    simp [port, jsOrNum, hn]

/-- Witness for C10 at the concrete argument `"0"`. -/
theorem port_prefix_parse_behavior_witness : port (some "0") = 3000 := by
  have h := (port_prefix_parse_behavior (some "0")).2.2.2.1 0 (by decide)
  simpa using h
